import Mathlib

/-!
# Verification of the big-AGI client streaming generation pipeline

Shallow embedding of the retry engine (`src/server/trpc/trpc.fetchers.retrier.ts`),
the parameter overlay (`llms.parameters.ts`, shipped here inside `main.tf`), and the
AIX client orchestrator (`src/modules/aix/client/aix.client.ts`), together with
theorems settling the frozen behavioural claims about them.

Conventions:
- JavaScript numbers that only ever hold integers are `ℕ`/`ℤ`; fractional
  quantities (jitter factors, temperatures, delays before rounding) are `ℚ`.
- `undefined` object fields are `Option`; a field that is both optional and
  nullable is `Option (Option _)` (outer `none` = `undefined`, inner = `null`).
- Promise rejection / thrown errors are `Except` values.
-/

/-! ## Retry engine: profiles (trpc.fetchers.retrier.ts, lines 7-22) -/

/-- A retry profile, as in `RETRY_PROFILES` (`trpc.fetchers.retrier.ts`). -/
structure RetryProfile where
  baseDelayMs : ℕ
  maxDelayMs : ℕ
  jitterFactor : ℚ
  maxAttempts : ℕ
deriving DecidableEq, Repr

/-- `RETRY_PROFILES.network`: network/DNS failures (never connected) -> fast retry. -/
def RETRY_PROFILES.network : RetryProfile :=
  { baseDelayMs := 500, maxDelayMs := 8000, jitterFactor := 1/4, maxAttempts := 3 }

/-- `RETRY_PROFILES.server`: server overload (connected, but server busy) -> slower retry. -/
def RETRY_PROFILES.server : RetryProfile :=
  { baseDelayMs := 1000, maxDelayMs := 10000, jitterFactor := 1/2, maxAttempts := 4 }

/-! ## Retry engine: the 429 denylist (lines 31-40) -/

/-- Case-insensitive fold used to model the `/i` regex flag: lower-case the
characters of a string (`String.map Char.toLower`, on the character list). -/
def lowerChars (s : String) : List Char := s.toList.map Char.toLower

/-- Contiguous-substring test on character lists. -/
def listInfixOf (needle hay : List Char) : Bool :=
  hay.tails.any (fun t => needle.isPrefixOf t)

/-- JavaScript `String.prototype.includes`: substring test. -/
def strIncludes (hay needle : String) : Bool :=
  listInfixOf needle.toList hay.toList

/-- Case-insensitive substring test (models a `/alt1|alt2/i` regex alternative that is
a plain literal). -/
def ciIncludes (hay needle : String) : Bool :=
  listInfixOf (lowerChars needle) (lowerChars hay)

/-- One-or-more ASCII digits followed by `k`-accepted remainder: models `\d+` when the
continuation cannot start with a digit (true for the denylist regex, whose
continuations start with a comma or end the match), so greedy matching is exact. -/
def digitsThen (k : List Char → Bool) (cs : List Char) : Bool :=
  match cs with
  | [] => false
  | c :: rest => c.isDigit && k (rest.dropWhile Char.isDigit)

/-- Whether the regex `limit \d+, requested \d+` (from `_429_RETRY_DENYLIST`) matches at
the start of an (already lower-cased) character list. -/
def limitRequestedAt (cs : List Char) : Bool :=
  "limit ".toList.isPrefixOf cs &&
  digitsThen
    (fun cs2 => ", requested ".toList.isPrefixOf cs2 &&
      digitsThen (fun _ => true) (cs2.drop 12))
    (cs.drop 6)

/-- Whether `limit \d+, requested \d+` matches anywhere in `message`, case-insensitively
(the `/i` flag on the second denylist entry). -/
def limitRequestedMatches (message : String) : Bool :=
  (lowerChars message).tails.any limitRequestedAt

/-- `_429_RETRY_DENYLIST` (`trpc.fetchers.retrier.ts`, lines 31-40), as a list of
message predicates: regex entries are tested with `test` (modelled by the matchers
above), string entries with case-sensitive `String.includes`. -/
def _429_RETRY_DENYLIST : List (String → Bool) :=
  [ fun m => ciIncludes m "quota" || ciIncludes m "billing",
    fun m => ciIncludes m "request too large" || limitRequestedMatches m,
    fun m => strIncludes m "rate limit of 0 input tokens per minute",
    fun m => strIncludes m "Insufficient balance or no resource package" ]

/-- `_429_RETRY_DENYLIST.find(...)` succeeds on the message. -/
def denylistMatches (message : String) : Bool :=
  _429_RETRY_DENYLIST.any (fun t => t message)

/-! ## Retry engine: error model and classifier (lines 46-78) -/

/-- The fields of `TRPCFetcherError` that the retrier inspects (the class itself lives
in `trpc.router.fetchers.ts`, outside this tree; only these fields are read here).
`httpStatus` is optional; JavaScript truthiness of `0` is modelled explicitly. -/
structure TRPCFetcherError where
  category : String
  httpStatus : Option ℕ
  message : String
deriving DecidableEq, Repr

/-- An arbitrary thrown value: either a `TRPCFetcherError` instance or anything else
(the `instanceof` test in `selectRetryProfile`). -/
inductive FetchedValueError where
  | fetcher (e : TRPCFetcherError)
  | nonFetcher
deriving DecidableEq, Repr

/-- JavaScript truthiness of the optional `httpStatus` number. -/
def httpStatusTruthy : Option ℕ → Bool
  | none => false
  | some s => s != 0

/-- `selectRetryProfile` (`trpc.fetchers.retrier.ts`, lines 46-78): determines if a
dispatch error is retryable and which profile to use. -/
def selectRetryProfile : FetchedValueError → Option RetryProfile
  | .nonFetcher => none
  | .fetcher e =>
    if e.category = "connection" then
      some RETRY_PROFILES.network  -- DNS, TCP, timeouts, ... doesn't connect
    else if e.category = "http" && httpStatusTruthy e.httpStatus then
      -- 429 Too Many Requests: distinguish quota errors (don't retry) from rate limits
      if e.httpStatus = some 429 then
        if denylistMatches e.message then none
        else some RETRY_PROFILES.server  -- Retry temporary rate limits
      -- retriable server errors: retryCodes = [503, 502]
      else if e.httpStatus = some 503 || e.httpStatus = some 502 then
        some RETRY_PROFILES.server
      else none
    else
      none

/-! ## Retry engine: backoff delay (lines 169-178) -/

/-- The delay computation of `createRetryablePromise` (lines 169-178), at the point
where `attemptNumber` still names the attempt that just failed. `u` is the value of
`Math.random() * 2 - 1`, in `[-1, 1]`. `round` is `Math.round` (ties to `+∞`, same as
`round` on `ℚ` for the values at hand), `max 1` is the `Math.max(1, ...)` clamp. -/
def computeRetryDelay (rp : RetryProfile) (attemptNumber : ℕ) (u : ℚ) : ℤ :=
  let exponentialDelay : ℚ := (rp.baseDelayMs : ℚ) * 2 ^ (attemptNumber - 1)
  let delayMs : ℚ := min exponentialDelay (rp.maxDelayMs : ℚ)
  if 0 < rp.jitterFactor then
    let jitterRange := delayMs * rp.jitterFactor
    let randomJitter := u * jitterRange
    max 1 (round (delayMs + randomJitter))
  else
    round delayMs

/-! ## Retry engine: the attempt loop (lines 109-203) -/

/-- Outcome of `createRetryablePromise`: the promise settles (`resolved`/`rejected`,
recording with `attempts` how many times `operationFn` was invoked), or the fuel ran
out (never reached by the theorems below: the loop rejects once `attemptNumber`
reaches the profile's `maxAttempts`). -/
inductive RetryResult (E T : Type) where
  | resolved (value : T) (attempts : ℕ)
  | rejected (error : E) (attempts : ℕ)
  | outOfFuel
deriving DecidableEq, Repr

/-- The `while (true)` loop of `createRetryablePromise` (lines 113-201).

* `op k` is the outcome of the `k`-th invocation of `operationFn` (1-based);
* `abortedAt k` is `abortSignal.aborted` as observed right after invocation `k` fails;
* `waitAbortedAt k` is whether `abortableDelay` after failed invocation `k` reports
  that the signal fired during the backoff wait.

The delay computation and the `onRetry` notification do not affect control flow and
are modelled separately (`computeRetryDelay`). -/
def createRetryablePromiseLoop {E T : Type} (op : ℕ → Except E T)
    (abortedAt : ℕ → Bool) (waitAbortedAt : ℕ → Bool)
    (classify : E → Option RetryProfile) :
    ℕ → ℕ → RetryResult E T
  | _, 0 => .outOfFuel
  | attemptNumber, fuel + 1 =>
    match op attemptNumber with
    | .ok result => .resolved result attemptNumber
    | .error e =>
      -- aborted: forward the error immediately
      if abortedAt attemptNumber then .rejected e attemptNumber
      else
        match classify e with
        -- not retryable
        | none => .rejected e attemptNumber
        | some rp =>
          -- exhausted attempts
          if rp.maxAttempts ≤ attemptNumber then .rejected e attemptNumber
          -- abortable wait, interrupted: reject with the original error
          else if waitAbortedAt attemptNumber then .rejected e attemptNumber
          -- -> loop continues for next attempt
          else createRetryablePromiseLoop op abortedAt waitAbortedAt classify
            (attemptNumber + 1) fuel

/-- `createRetryablePromise` (lines 109-203): the loop entered with `attemptNumber = 1`,
classifying errors with `selectRetryProfile`. -/
def createRetryablePromise {T : Type} (op : ℕ → Except FetchedValueError T)
    (abortedAt : ℕ → Bool) (waitAbortedAt : ℕ → Bool) (fuel : ℕ) :
    RetryResult FetchedValueError T :=
  createRetryablePromiseLoop op abortedAt waitAbortedAt selectRetryProfile 1 fuel

/-! ## Parameter overlay (llms.parameters.ts, shipped in `main.tf`) -/

/-- `DModelParameterValues`, restricted to the parameters that
`aixCreateModelFromLLMOptions` destructures (lines 46-56 of `aix.client.ts`); every
field is optional (`undefined` = `none`). `llmTemperature`, `llmResponseTokens` and
`llmVndAntThinkingBudget` are additionally nullable per the registry, hence
`Option (Option _)`. -/
structure DModelParameterValues where
  llmRef : Option String := none
  llmTemperature : Option (Option ℚ) := none
  llmResponseTokens : Option (Option ℤ) := none
  llmTopP : Option ℚ := none
  llmForceNoStream : Option Bool := none
  llmVndAntThinkingBudget : Option (Option ℤ) := none
  llmVndGeminiShowThoughts : Option Bool := none
  llmVndGeminiThinkingBudget : Option ℤ := none
  llmVndOaiReasoningEffort : Option String := none
  llmVndOaiRestoreMarkdown : Option Bool := none
  llmVndOaiWebSearchContext : Option String := none
  llmVndOaiWebSearchGeolocation : Option Bool := none
  llmVndPerplexityDateFilter : Option String := none
  llmVndPerplexitySearchMode : Option String := none
  llmVndXaiSearchMode : Option String := none
  llmVndXaiSearchSources : Option String := none
  llmVndXaiSearchDateFilter : Option String := none
deriving DecidableEq, Repr

/-- JavaScript object spread `{ ...lo, ...hi }` on two parameter-value records: per
key, `hi` wins whenever it defines the key. -/
def spreadParams (lo hi : DModelParameterValues) : DModelParameterValues where
  llmRef := hi.llmRef <|> lo.llmRef
  llmTemperature := hi.llmTemperature <|> lo.llmTemperature
  llmResponseTokens := hi.llmResponseTokens <|> lo.llmResponseTokens
  llmTopP := hi.llmTopP <|> lo.llmTopP
  llmForceNoStream := hi.llmForceNoStream <|> lo.llmForceNoStream
  llmVndAntThinkingBudget := hi.llmVndAntThinkingBudget <|> lo.llmVndAntThinkingBudget
  llmVndGeminiShowThoughts := hi.llmVndGeminiShowThoughts <|> lo.llmVndGeminiShowThoughts
  llmVndGeminiThinkingBudget := hi.llmVndGeminiThinkingBudget <|> lo.llmVndGeminiThinkingBudget
  llmVndOaiReasoningEffort := hi.llmVndOaiReasoningEffort <|> lo.llmVndOaiReasoningEffort
  llmVndOaiRestoreMarkdown := hi.llmVndOaiRestoreMarkdown <|> lo.llmVndOaiRestoreMarkdown
  llmVndOaiWebSearchContext := hi.llmVndOaiWebSearchContext <|> lo.llmVndOaiWebSearchContext
  llmVndOaiWebSearchGeolocation := hi.llmVndOaiWebSearchGeolocation <|> lo.llmVndOaiWebSearchGeolocation
  llmVndPerplexityDateFilter := hi.llmVndPerplexityDateFilter <|> lo.llmVndPerplexityDateFilter
  llmVndPerplexitySearchMode := hi.llmVndPerplexitySearchMode <|> lo.llmVndPerplexitySearchMode
  llmVndXaiSearchMode := hi.llmVndXaiSearchMode <|> lo.llmVndXaiSearchMode
  llmVndXaiSearchSources := hi.llmVndXaiSearchSources <|> lo.llmVndXaiSearchSources
  llmVndXaiSearchDateFilter := hi.llmVndXaiSearchDateFilter <|> lo.llmVndXaiSearchDateFilter

/-- `LLMImplicitParamersRuntimeFallback` (llms.parameters.ts): implicit common
parameters always supported by all models. Note: `llmRef` is deliberately absent
("we know this can't have a fallback value in the registry"). -/
def LLMImplicitParamersRuntimeFallback : DModelParameterValues where
  llmResponseTokens := some (some 8192)
  llmTemperature := some (some (1/2))

/-- `getAllModelParameterValues(initialParameters, userParameters)`
(llms.parameters.ts): `{ ...LLMImplicitParamersRuntimeFallback, ...initialParameters,
...userParameters }`. A missing `initialParameters` object spreads as empty. -/
def getAllModelParameterValues (initialParameters : Option DModelParameterValues)
    (userParameters : Option DModelParameterValues) : DModelParameterValues :=
  spreadParams
    (spreadParams LLMImplicitParamersRuntimeFallback (initialParameters.getD {}))
    (userParameters.getD {})

/-! ## AIX model construction (aix.client.ts, lines 33-114) -/

/-- The `DLLM.interfaces` flags read by `aixCreateModelFromLLMOptions`. -/
inductive LLMInterface where
  | hotfixNoTemperature   -- LLM_IF_HOTFIX_NoTemperature
  | oaiResponses          -- LLM_IF_OAI_Responses
  | outputsAudio          -- LLM_IF_Outputs_Audio
  | outputsImage          -- LLM_IF_Outputs_Image
  | outputsNoText         -- LLM_IF_Outputs_NoText
deriving DecidableEq, Repr

/-- JavaScript truthiness of an optional string (empty string is falsy). -/
def someTruthyStr : Option String → Option String
  | some s => if s = "" then none else some s
  | none => none

/-- JavaScript truthiness of an optional boolean (`{ k: v }` spread guarded by `v`). -/
def someTruthyBool : Option Bool → Option Bool
  | some true => some true
  | _ => none

/-- `AixAPI_Model`, with the fields `aixCreateModelFromLLMOptions` can produce.
`temperature`: `none` = omitted, `some none` = explicit `null` (the NoTemperature
hotfix), `some (some t)` = value. `userGeolocation` is omitted from the model: it is
read from an external browser cache (`webGeolocationCached`), outside this tree. -/
structure AixModel where
  id : String
  acceptsOutputs : List String
  temperature : Option (Option ℚ) := none
  maxTokens : Option ℤ := none
  topP : Option ℚ := none
  forceNoStream : Option Bool := none
  vndAntThinkingBudget : Option (Option ℤ) := none
  vndGeminiShowThoughts : Option Bool := none
  vndGeminiThinkingBudget : Option ℤ := none
  vndOaiResponsesAPI : Option Bool := none
  vndOaiReasoningEffort : Option String := none
  vndOaiRestoreMarkdown : Option Bool := none
  vndOaiWebSearchContext : Option String := none
  vndPerplexityDateFilter : Option String := none
  vndPerplexitySearchMode : Option String := none
  vndXaiSearchMode : Option String := none
  vndXaiSearchSources : Option String := none
  vndXaiSearchDateFilter : Option String := none
deriving DecidableEq, Repr

/-- Lines 41-56 of `aix.client.ts`: the defensive removal of `llmRef` from the
override ("excess of caution") followed by the destructuring of
`{ ...llmOptions, ...llmOptionsOverride }` — the effective parameter record the
model is built from. -/
def aixEffectiveLLMOptions (llmOptions : DModelParameterValues)
    (llmOptionsOverrideIn : Option DModelParameterValues) : DModelParameterValues :=
  -- make sure llmRef is removed, if present in the override - excess of caution here
  let llmOptionsOverride := llmOptionsOverrideIn.map (fun o => { o with llmRef := none })
  -- destructure input with the overrides
  spreadParams llmOptions (llmOptionsOverride.getD {})

/-- `aixCreateModelFromLLMOptions` (aix.client.ts, lines 33-114). Mirrors, in order:
the defensive `delete llmOptionsOverride.llmRef` (lines 41-43), the destructuring of
`{ ...llmOptions, ...llmOptionsOverride }` (lines 46-56), the `if (!llmRef) throw`
guard (lines 59-60; JavaScript falsiness of `''` included), the output-modality list
(lines 67-70), and the conditional spreads of the returned model (lines 93-113).
Thrown errors are `Except.error` carrying the message prefix. -/
def aixCreateModelFromLLMOptions (llmInterfaces : List LLMInterface)
    (llmOptions : DModelParameterValues)
    (llmOptionsOverrideIn : Option DModelParameterValues)
    (debugLlmId : String) : Except String AixModel :=
  let p := aixEffectiveLLMOptions llmOptions llmOptionsOverrideIn
  -- llmRef is absolutely required
  match someTruthyStr p.llmRef with
  | none => .error ("AIX: Error in configuration for model " ++ debugLlmId ++ " (missing ref, temperature)")
  | some llmRef =>
    let hotfixOmitTemperature := llmInterfaces.contains .hotfixNoTemperature
    .ok {
      id := llmRef
      acceptsOutputs :=
        (if llmInterfaces.contains .outputsNoText then [] else ["text"]) ++
        (if llmInterfaces.contains .outputsAudio then ["audio"] else []) ++
        (if llmInterfaces.contains .outputsImage then ["image"] else [])
      temperature := if hotfixOmitTemperature then some none else p.llmTemperature
      maxTokens := match p.llmResponseTokens with
        | some (some n) => if n = 0 then none else some n  -- null and 0 are falsy
        | _ => none
      topP := p.llmTopP
      forceNoStream := someTruthyBool p.llmForceNoStream
      vndAntThinkingBudget := p.llmVndAntThinkingBudget
      vndGeminiShowThoughts := someTruthyBool p.llmVndGeminiShowThoughts
      vndGeminiThinkingBudget := p.llmVndGeminiThinkingBudget
      vndOaiResponsesAPI := if llmInterfaces.contains .oaiResponses then some true else none
      vndOaiReasoningEffort := someTruthyStr p.llmVndOaiReasoningEffort
      vndOaiRestoreMarkdown := someTruthyBool p.llmVndOaiRestoreMarkdown
      vndOaiWebSearchContext := someTruthyStr p.llmVndOaiWebSearchContext
      vndPerplexityDateFilter := someTruthyStr p.llmVndPerplexityDateFilter
      vndPerplexitySearchMode := someTruthyStr p.llmVndPerplexitySearchMode
      vndXaiSearchMode := someTruthyStr p.llmVndXaiSearchMode
      vndXaiSearchSources := someTruthyStr p.llmVndXaiSearchSources
      vndXaiSearchDateFilter := someTruthyStr p.llmVndXaiSearchDateFilter
    }

/-! ## Message fragments (chat.fragments surface used by aix.client.ts) -/

/-- The `pt` discriminants of fragment parts, exactly the cases of the `switch` in
`_llToText` (aix.client.ts, lines 368-388). `text` carries `part.text`, `errorPart`
carries `part.error`, `toolInvocation` carries the name-or-id string interpolated
into the thrown message. -/
inductive DMessagePart where
  | text (text : String)
  | errorPart (error : String)
  | toolInvocation (nameOrId : String)
  | annotations
  | ma
  | ph
  | reference
  | imageRef
  | toolResponse
  | ptSentinel
deriving DecidableEq, Repr

/-- Whether a part is an error part (`isErrorPart` from chat.fragments). -/
def DMessagePart.isErrorP : DMessagePart → Bool
  | .errorPart _ => true
  | _ => false

/-- Whether a part is a tool-invocation part. -/
def DMessagePart.isToolInv : DMessagePart → Bool
  | .toolInvocation _ => true
  | _ => false

/-- Fragment kind: content (`DMessageContentFragment`) or void (`DMessageVoidFragment`);
`isContentFragment` tests the former. -/
inductive FragmentKind where
  | content
  | voidK
deriving DecidableEq, Repr

/-- A fragment of the accumulator list (`DMessageContentFragment | DMessageVoidFragment`). -/
structure DMessageFragment where
  kind : FragmentKind
  part : DMessagePart
deriving DecidableEq, Repr

/-- `createErrorContentFragment(text)` (chat.fragments, outside this tree): a content
fragment whose part is an error part carrying `text`. -/
def createErrorContentFragment (text : String) : DMessageFragment :=
  { kind := .content, part := .errorPart text }

/-! ## Low-level accumulator (aix.client.ts, lines 542-551) -/

/-- `DMessageGenerator['tokenStopReason']` values appearing in this module. -/
inductive TokenStopReason where
  | clientAbort   -- 'client-abort'
  | outOfTokens   -- 'out-of-tokens'
  | issue         -- 'issue'
deriving DecidableEq, Repr

/-- `AixChatGenerateContent_LL` (aix.client.ts, lines 542-551): the streaming
accumulator. Metrics are kept abstract (`Option ℕ` stands for the optional
`DMetricsChatGenerate_Lg` record; its contents are never inspected here). -/
structure AixChatGenerateContent_LL where
  fragments : List DMessageFragment
  genMetricsLg : Option ℕ := none
  genModelName : Option String := none
  genTokenStopReason : Option TokenStopReason := none
deriving DecidableEq, Repr

/-! ## ContentReassembler terminal operations

The `ContentReassembler` class is not part of this tree (only its call sites in
`aix.client.ts` are), so its three terminal operations are modelled from the spec. -/

/-- Modelled from the spec: `ContentReassembler.setClientAborted()` (spec section 4.4)
-- missing source `ContentReassembler.ts`. "Idempotent; marks the stop-reason as
user-cancellation. If fragments already exist, they are preserved and no error
fragment is appended. If no fragments exist yet, the accumulator remains empty except
for the stop-reason." -/
def setClientAborted (acc : AixChatGenerateContent_LL) : AixChatGenerateContent_LL :=
  { acc with genTokenStopReason := some .clientAbort }

/-- Modelled from the spec: `ContentReassembler.setClientExcepted(message)` (spec
section 4.4) -- missing source `ContentReassembler.ts`. "Appends an error-variant
fragment carrying `message`, preserving any fragments already accumulated (never
replaces prior content)." -/
def setClientExcepted (message : String) (acc : AixChatGenerateContent_LL) :
    AixChatGenerateContent_LL :=
  { acc with fragments := acc.fragments ++ [createErrorContentFragment message] }

/-- Modelled from the spec: `ContentReassembler.finalizeAccumulator()` (spec section
4.4) -- missing source `ContentReassembler.ts`. "Seals any open text fragment":
in this embedding fragments are already sealed values, so the fragment list and the
generator pieces are unchanged. -/
def finalizeAccumulator (acc : AixChatGenerateContent_LL) : AixChatGenerateContent_LL :=
  acc

/-! ## Tier 0: `_aixChatGenerateContent_LL` failure path (aix.client.ts, lines 685-704) -/

/-- The `catch` block of `_aixChatGenerateContent_LL` (lines 685-704): with
`isUserAbort = abortSignal.aborted` and `isErrorAbort` the AbortError shape test on
the thrown error, either a clean abort or an appended error fragment. `errText` is
the human-readable rendering `presentErrorToHumans(error, ...) || 'Unknown error'`
(function outside this tree) after the `[TRPCClientError]` strip. -/
def aixLLCatch (isUserAbort isErrorAbort : Bool) (errText : String)
    (acc : AixChatGenerateContent_LL) : AixChatGenerateContent_LL :=
  if isUserAbort || isErrorAbort then
    setClientAborted acc
  else
    setClientExcepted ("An unexpected error occurred: " ++ errText ++ " Please retry.") acc

/-- `_aixChatGenerateContent_LL` from the point of view of one call's outcome: the
`try` block accumulates `acc` (via the reassembler); if the transport/stream failed,
`failure = some (isUserAbort, isErrorAbort, errText)` and the catch handler runs;
in every case the accumulator is finalized and returned -- the promise resolves with
it (the function body never re-throws content-domain failures). -/
def aixChatGenerateContent_LL_run (acc : AixChatGenerateContent_LL)
    (failure : Option (Bool × Bool × String)) : AixChatGenerateContent_LL :=
  match failure with
  | none => finalizeAccumulator acc
  | some (ua, ea, txt) => finalizeAccumulator (aixLLCatch ua ea txt acc)

/-! ## Tier 2: `aixChatGenerateText_Simple` / `_llToText` (aix.client.ts, 237-391) -/

/-- The fragment loop of `_llToText` (lines 367-389), started with `dest.text = ''`:
text parts append; error parts append with a `'\n'` separator when the accumulated
text is nonempty; a tool-invocation part throws; the remaining part kinds are
ignored. -/
def llToTextGo : List DMessageFragment → String → Except String String
  | [], acc => .ok acc
  | f :: fs, acc =>
    match f.part with
    | .text t => llToTextGo fs (acc ++ t)
    | .errorPart e => llToTextGo fs (acc ++ (if acc = "" then "" else "\n") ++ e)
    | .toolInvocation s =>
      .error ("AIX: Unexpected tool invocation " ++ s ++ " in the Text response.")
    | _ => llToTextGo fs acc

/-- `_llToText` restricted to its text effect (lines 355-391): `dest.text` is left at
its previous value (`prevText`, `none` = null) when `src.fragments` is empty,
otherwise recomputed from `''` by the loop. -/
def llToTextText (fragments : List DMessageFragment) (prevText : Option String) :
    Except String (Option String) :=
  if fragments.isEmpty then .ok prevText
  else (llToTextGo fragments "").map some

/-- The `'\n'.join` of the error strings of content error fragments
(aix.client.ts, lines 337-339). -/
def llErrorJoin (fragments : List DMessageFragment) : String :=
  String.intercalate "\n"
    ((fragments.filter (fun f => f.kind = .content && f.part.isErrorP)).map
      (fun f => match f.part with | .errorPart e => e | _ => ""))

/-- Outcome of `aixChatGenerateText_Simple`: a thrown `Error` (with its message), the
thrown `DOMException 'AbortError'`, or resolution with the final text. -/
inductive AixTextOutcome where
  | errThrown (message : String)
  | errAborted
  | resolvedText (text : String)
deriving DecidableEq, Repr

/-- The result dispatch of `aixChatGenerateText_Simple` after the low-level call
returned accumulator `ll` (lines 320-346), with `signalAborted = abortSignal.aborted`:
`_llToText` runs first (throwing on tool invocations), then the abort re-throw, the
empty-text check (`state.text === null`), the error-fragment join (thrown only when
truthy, i.e. nonempty), and finally resolution with the accumulated text. -/
def aixChatGenerateText_Simple_finish (ll : AixChatGenerateContent_LL)
    (signalAborted : Bool) : AixTextOutcome :=
  match llToTextText ll.fragments none with
  | .error m => .errThrown m
  | .ok textOpt =>
    if signalAborted then .errAborted
    else
      match textOpt with
      | none => .errThrown "AIX: Empty text response."
      | some text =>
        let errorMessage := llErrorJoin ll.fragments
        if errorMessage = "" then .resolvedText text
        else .errThrown ("AIX: Error in response: " ++ errorMessage)

/-! ## Tier 1: `aixChatGenerateContent_DMessage` event trace (aix.client.ts, 420-504) -/

/-- Externally observable events of one `aixChatGenerateContent_DMessage` call. -/
inductive DMessageEvent where
  | notify (done : Bool)   -- await onStreamingUpdate?.(dMessage, done)
  | rateLimitHook          -- await llmVendor.rateLimitChatGenerate?.(...)
  | transportCall          -- the _aixChatGenerateContent_LL / apiStream mutate call
  | computeCosts           -- _updateGeneratorCostsInPlace(...)
deriving DecidableEq, Repr

/-- The event trace of `aixChatGenerateContent_DMessage` (lines 454-503), given
whether a streaming callback was supplied (`hasCallback`) and the `isDone` flags of
the low-level updates delivered during the transport call (`llUpdates`). In order:
the initial not-done notification (line 470), the vendor rate-limit hook (line 473),
the transport call (line 483) during which each low-level update with `isDone = true`
returns early and each other update notifies not-done when a callback exists
(lines 484-490), cost computation (line 498), and the final done notification
(line 501). -/
def aixChatGenerateContent_DMessage_trace (hasCallback : Bool) (llUpdates : List Bool) :
    List DMessageEvent :=
  (if hasCallback then [.notify false] else []) ++
  [.rateLimitHook, .transportCall] ++
  (llUpdates.filterMap (fun isDone =>
    if isDone then none
    else if hasCallback then some (.notify false) else none)) ++
  [.computeCosts] ++
  (if hasCallback then [.notify true] else [])

/-! ## Theorems -/

/-- Any profile the classifier selects is one of the two `RETRY_PROFILES` entries. -/
theorem selectRetryProfile_mem (x : FetchedValueError) (P : RetryProfile)
    (h : selectRetryProfile x = some P) :
    P = RETRY_PROFILES.network ∨ P = RETRY_PROFILES.server := by
  cases x with
  | nonFetcher => simp [selectRetryProfile] at h
  | fetcher e =>
    simp only [selectRetryProfile] at h
    split_ifs at h <;> simp_all

/-- C3: `selectRetryProfile` is a pure function of the error value mapping
connection-category errors to the network profile (500 ms base, 8000 ms cap, ±25%
jitter, 3 attempts); HTTP 502/503 to the server profile (1000 ms base, 10000 ms cap,
±50% jitter, 4 attempts); HTTP 429 matching the denylist (quota/billing,
request-too-large, zero-rate-limit, insufficient balance) to non-retryable; other
HTTP 429 to the server profile; and every other error value — non-fetcher errors
included — to non-retryable. -/
theorem selectRetryProfile_characterization :
    RETRY_PROFILES.network =
      { baseDelayMs := 500, maxDelayMs := 8000, jitterFactor := 1/4, maxAttempts := 3 } ∧
    RETRY_PROFILES.server =
      { baseDelayMs := 1000, maxDelayMs := 10000, jitterFactor := 1/2, maxAttempts := 4 } ∧
    (∀ e : TRPCFetcherError, e.category = "connection" →
      selectRetryProfile (.fetcher e) = some RETRY_PROFILES.network) ∧
    (∀ e : TRPCFetcherError, e.category = "http" →
      (e.httpStatus = some 502 ∨ e.httpStatus = some 503) →
      selectRetryProfile (.fetcher e) = some RETRY_PROFILES.server) ∧
    (∀ e : TRPCFetcherError, e.category = "http" → e.httpStatus = some 429 →
      denylistMatches e.message = true → selectRetryProfile (.fetcher e) = none) ∧
    (∀ e : TRPCFetcherError, e.category = "http" → e.httpStatus = some 429 →
      denylistMatches e.message = false →
      selectRetryProfile (.fetcher e) = some RETRY_PROFILES.server) ∧
    selectRetryProfile .nonFetcher = none ∧
    (∀ e : TRPCFetcherError, e.category ≠ "connection" →
      (e.category = "http" → ∀ s, e.httpStatus = some s → ¬(s = 429 ∨ s = 502 ∨ s = 503)) →
      selectRetryProfile (.fetcher e) = none) := by
  refine ⟨rfl, rfl, ?_, ?_, ?_, ?_, rfl, ?_⟩
  · intro e h
    simp [selectRetryProfile, h]
  · intro e hcat hs
    rcases hs with hs | hs <;> simp [selectRetryProfile, hcat, hs, httpStatusTruthy]
  · intro e hcat hs hdeny
    simp [selectRetryProfile, hcat, hs, httpStatusTruthy, hdeny]
  · intro e hcat hs hdeny
    simp [selectRetryProfile, hcat, hs, httpStatusTruthy, hdeny]
  · intro e h1 h2
    simp only [selectRetryProfile]
    rw [if_neg h1]
    by_cases hh : e.category = "http"
    · cases hstatus : e.httpStatus with
      | none => simp [hh, hstatus, httpStatusTruthy]
      | some s =>
        have hns := h2 hh s hstatus
        by_cases hs0 : s = 0
        · simp [hh, hstatus, httpStatusTruthy, hs0]
        · have h429 : ¬(s = 429) := fun h => hns (Or.inl h)
          have h502 : ¬(s = 502) := fun h => hns (Or.inr (Or.inl h))
          have h503 : ¬(s = 503) := fun h => hns (Or.inr (Or.inr h))
          simp [hh, hstatus, httpStatusTruthy, hs0, h429, h502, h503]
    · have : (e.category = "http" && httpStatusTruthy e.httpStatus) = false := by
        simp [hh]
      rw [if_neg (by simp [this])]

/-- Witness for C3: the characterization applied at a concrete connection error, a
concrete denied 429 quota error, and a concrete non-fetcher value. -/
theorem selectRetryProfile_characterization_witness :
    selectRetryProfile (.fetcher ⟨"connection", none, "getaddrinfo ENOTFOUND"⟩) =
      some RETRY_PROFILES.network ∧
    selectRetryProfile (.fetcher ⟨"http", some 429, "You exceeded your current quota"⟩) =
      none ∧
    selectRetryProfile .nonFetcher = none :=
  ⟨selectRetryProfile_characterization.2.2.1 _ rfl,
   selectRetryProfile_characterization.2.2.2.2.1 _ rfl rfl (by decide),
   selectRetryProfile_characterization.2.2.2.2.2.2.1⟩


/-- One unfolding step of the attempt loop when invocation `n` fails. -/
theorem createRetryablePromiseLoop_step {E T : Type} (op : ℕ → Except E T)
    (aa wa : ℕ → Bool) (classify : E → Option RetryProfile) (n fuel : ℕ)
    (e : E) (h : op n = .error e) :
    createRetryablePromiseLoop op aa wa classify n (fuel + 1)
      = if aa n then .rejected e n
        else
          match classify e with
          | none => .rejected e n
          | some rp =>
            if rp.maxAttempts ≤ n then .rejected e n
            else if wa n then .rejected e n
            else createRetryablePromiseLoop op aa wa classify (n + 1) fuel := by
  rw [createRetryablePromiseLoop, h]

/-- Loop invariant for C2: starting the attempt loop at attempt `n ≤ maxAttempts` with
every invocation failing retryably under profile `P` and no cancellation, the loop
rejects with the error of attempt `P.maxAttempts`, after exactly that many
invocations. -/
theorem createRetryablePromiseLoop_allFail {T : Type}
    (op : ℕ → Except FetchedValueError T) (errs : ℕ → FetchedValueError)
    (P : RetryProfile)
    (hop : ∀ k, op k = .error (errs k))
    (hcl : ∀ k, selectRetryProfile (errs k) = some P) :
    ∀ (fuel n : ℕ), 1 ≤ n → n ≤ P.maxAttempts → P.maxAttempts - n < fuel →
    createRetryablePromiseLoop op (fun _ => false) (fun _ => false) selectRetryProfile
        n fuel
      = .rejected (errs P.maxAttempts) P.maxAttempts := by
  intro fuel
  induction fuel with
  | zero => intro n _ _ hf; omega
  | succ fuel ih =>
    intro n h1 h2 hf
    rw [createRetryablePromiseLoop_step op _ _ _ n fuel _ (hop n)]
    simp only [hcl n, Bool.false_eq_true, if_false]
    by_cases hend : P.maxAttempts ≤ n
    · have : n = P.maxAttempts := le_antisymm h2 hend
      rw [if_pos hend, this]
    · rw [if_neg hend]
      exact ih (n + 1) (by omega) (by omega) (by omega)

/-- C2: if every invocation of the operation fails with an error classified retryable
under profile `P`, and the cancellation signal never fires, `createRetryablePromise`
invokes the operation exactly `P.maxAttempts` times (`P.maxAttempts − 1` retries
after the first attempt) and rejects with the error of the last attempt. -/
theorem createRetryablePromise_allFail_exhausts {T : Type}
    (op : ℕ → Except FetchedValueError T) (errs : ℕ → FetchedValueError)
    (P : RetryProfile)
    (hop : ∀ k, op k = .error (errs k))
    (hcl : ∀ k, selectRetryProfile (errs k) = some P)
    (fuel : ℕ) (hfuel : P.maxAttempts ≤ fuel) :
    createRetryablePromise op (fun _ => false) (fun _ => false) fuel
      = .rejected (errs P.maxAttempts) P.maxAttempts := by
  have h1 : 1 ≤ P.maxAttempts := by
    rcases selectRetryProfile_mem (errs 1) P (hcl 1) with h | h <;>
      rw [h] <;> decide
  exact createRetryablePromiseLoop_allFail op errs P hop hcl fuel 1 le_rfl h1 (by omega)

/-- The concrete connection error of the C2 witness is classified into the network
profile. -/
theorem selectRetryProfile_connWitness :
    selectRetryProfile (.fetcher ⟨"connection", none, "fetch failed"⟩)
      = some RETRY_PROFILES.network := rfl

/-- Witness for C2: an operation that always fails with a connection error (network
profile, 3 total attempts) under abundant fuel: rejected with the last error after
exactly 3 invocations. -/
theorem createRetryablePromise_allFail_exhausts_witness :
    createRetryablePromise (T := Unit)
        (fun _ => .error (.fetcher ⟨"connection", none, "fetch failed"⟩))
        (fun _ => false) (fun _ => false) 10
      = .rejected (.fetcher ⟨"connection", none, "fetch failed"⟩) 3 :=
  createRetryablePromise_allFail_exhausts
    (fun _ => .error (.fetcher ⟨"connection", none, "fetch failed"⟩))
    (fun _ => .fetcher ⟨"connection", none, "fetch failed"⟩)
    RETRY_PROFILES.network
    (fun _ => rfl) (fun _ => selectRetryProfile_connWitness) 10 (by decide)

/-- C4: when an attempt fails while the cancellation signal is already set, or the
signal fires during the abortable backoff wait, the loop rejects with the original
triggering error — not a synthetic abort error — and performs no further invocation
(the recorded invocation count stays at the failing attempt). Stated for any loop
position `n`, and for the promise entry point at the first attempt. -/
theorem createRetryablePromise_abort_rejects_original {T : Type} :
    (∀ (op : ℕ → Except FetchedValueError T) (aa wa : ℕ → Bool) (n fuel : ℕ)
        (e : FetchedValueError), op n = .error e → aa n = true →
      createRetryablePromiseLoop op aa wa selectRetryProfile n (fuel + 1)
        = .rejected e n) ∧
    (∀ (op : ℕ → Except FetchedValueError T) (aa wa : ℕ → Bool) (n fuel : ℕ)
        (e : FetchedValueError) (rp : RetryProfile), op n = .error e → aa n = false →
        selectRetryProfile e = some rp → n < rp.maxAttempts → wa n = true →
      createRetryablePromiseLoop op aa wa selectRetryProfile n (fuel + 1)
        = .rejected e n) ∧
    (∀ (op : ℕ → Except FetchedValueError T) (aa wa : ℕ → Bool) (fuel : ℕ)
        (e : FetchedValueError), op 1 = .error e → aa 1 = true →
      createRetryablePromise op aa wa (fuel + 1) = .rejected e 1) := by
  refine ⟨?_, ?_, ?_⟩
  · intro op aa wa n fuel e hop haa
    rw [createRetryablePromiseLoop_step op _ _ _ n fuel _ hop, haa]
    simp
  · intro op aa wa n fuel e rp hop haa hcl hlt hwa
    rw [createRetryablePromiseLoop_step op _ _ _ n fuel _ hop, haa]
    simp only [hcl, Bool.false_eq_true, if_false]
    rw [if_neg (by omega), hwa]
    simp
  · intro op aa wa fuel e hop haa
    rw [createRetryablePromise,
      createRetryablePromiseLoop_step op _ _ _ 1 fuel _ hop, haa]
    simp

/-- The concrete 503 error of the C4 witness is classified into the server profile. -/
theorem selectRetryProfile_serverWitness :
    selectRetryProfile (.fetcher ⟨"http", some 503, "Service Unavailable"⟩)
      = some RETRY_PROFILES.server := rfl

/-- Witness for C4: a first attempt failing with a retryable 503 while the signal
fires during the backoff wait rejects with that original 503 error after one
invocation; a first attempt failing with the signal already set forwards the error. -/
theorem createRetryablePromise_abort_rejects_original_witness :
    createRetryablePromiseLoop (T := Unit) (E := FetchedValueError)
        (fun _ => .error (.fetcher ⟨"http", some 503, "Service Unavailable"⟩))
        (fun _ => false) (fun _ => true) selectRetryProfile 1 5
      = .rejected (.fetcher ⟨"http", some 503, "Service Unavailable"⟩) 1 ∧
    createRetryablePromise (T := Unit)
        (fun _ => .error .nonFetcher) (fun _ => true) (fun _ => false) 5
      = .rejected .nonFetcher 1 :=
  ⟨(createRetryablePromise_abort_rejects_original (T := Unit)).2.1
      _ _ _ 1 4 _ RETRY_PROFILES.server rfl rfl selectRetryProfile_serverWitness
      (by decide) rfl,
   (createRetryablePromise_abort_rejects_original (T := Unit)).2.2
      _ _ _ 4 _ rfl rfl⟩

/-- `round` of a rational between two integer bounds stays between them. -/
theorem round_int_bounds (x : ℚ) (lo hi : ℤ) (h1 : (lo : ℚ) ≤ x) (h2 : x ≤ (hi : ℚ)) :
    lo ≤ round x ∧ round x ≤ hi := by
  rw [round_eq]
  constructor
  · exact Int.le_floor.mpr (by linarith)
  · have h3 : (⌊x + 1/2⌋ : ℤ) < hi + 1 := Int.floor_lt.mpr (by push_cast; linarith)
    omega

/-- The `Math.max(1, Math.round(delay + jitter))` clamp keeps any integer bounds that
hold for the pre-rounding value, provided the lower bound is at least 1. -/
theorem jitterClampBounds (delay jf u : ℚ) (lo hi : ℤ) (hlo1 : 1 ≤ lo)
    (hlo : (lo : ℚ) ≤ delay + u * (delay * jf))
    (hhi : delay + u * (delay * jf) ≤ (hi : ℚ)) :
    (lo : ℚ) ≤ ((max 1 (round (delay + u * (delay * jf))) : ℤ) : ℚ) ∧
    ((max 1 (round (delay + u * (delay * jf))) : ℤ) : ℚ) ≤ (hi : ℚ) ∧
    1 ≤ max 1 (round (delay + u * (delay * jf))) := by
  obtain ⟨hb1, hb2⟩ := round_int_bounds _ lo hi hlo hhi
  have hm : max 1 (round (delay + u * (delay * jf))) = round (delay + u * (delay * jf)) :=
    max_eq_right (by omega)
  rw [hm]
  refine ⟨by exact_mod_cast hb1, by exact_mod_cast hb2, by omega⟩

/-- C5: for every upcoming attempt `n` with `2 ≤ n ≤ maxAttempts` under either retry
profile, and every jitter source value `u ∈ [−1, 1]`, the computed backoff delay `d`
(the code computes it while `attemptNumber` is still `n − 1`) satisfies
`base·2^(n−2)·(1−jitter) ≤ d ≤ min(max, base·2^(n−2))·(1+jitter)` and `1 ≤ d`. -/
theorem computeRetryDelay_jitter_bounds (P : RetryProfile)
    (hP : P = RETRY_PROFILES.network ∨ P = RETRY_PROFILES.server)
    (n : ℕ) (h2 : 2 ≤ n) (hn : n ≤ P.maxAttempts)
    (u : ℚ) (hu1 : -1 ≤ u) (hu2 : u ≤ 1) :
    (P.baseDelayMs : ℚ) * 2 ^ (n - 2) * (1 - P.jitterFactor)
        ≤ (computeRetryDelay P (n - 1) u : ℚ) ∧
    (computeRetryDelay P (n - 1) u : ℚ)
        ≤ min (P.maxDelayMs : ℚ) ((P.baseDelayMs : ℚ) * 2 ^ (n - 2))
            * (1 + P.jitterFactor) ∧
    1 ≤ computeRetryDelay P (n - 1) u := by
  rcases hP with hP | hP <;> subst hP
  · have hn3 : n ≤ 3 := by simpa [RETRY_PROFILES.network] using hn
    interval_cases n
    · have heq : computeRetryDelay RETRY_PROFILES.network (2 - 1) u
          = max 1 (round ((500 : ℚ) + u * (500 * (1/4)))) := by
        norm_num [computeRetryDelay, RETRY_PROFILES.network, min_def]
      rw [heq]
      have key := jitterClampBounds 500 (1/4) u 375 625 (by norm_num)
        (by linarith) (by linarith)
      norm_num [RETRY_PROFILES.network, min_def] at key ⊢
      exact key
    · have heq : computeRetryDelay RETRY_PROFILES.network (3 - 1) u
          = max 1 (round ((1000 : ℚ) + u * (1000 * (1/4)))) := by
        norm_num [computeRetryDelay, RETRY_PROFILES.network, min_def]
      rw [heq]
      have key := jitterClampBounds 1000 (1/4) u 750 1250 (by norm_num)
        (by linarith) (by linarith)
      norm_num [RETRY_PROFILES.network, min_def] at key ⊢
      exact key
  · have hn4 : n ≤ 4 := by simpa [RETRY_PROFILES.server] using hn
    interval_cases n
    · have heq : computeRetryDelay RETRY_PROFILES.server (2 - 1) u
          = max 1 (round ((1000 : ℚ) + u * (1000 * (1/2)))) := by
        norm_num [computeRetryDelay, RETRY_PROFILES.server, min_def]
      rw [heq]
      have key := jitterClampBounds 1000 (1/2) u 500 1500 (by norm_num)
        (by linarith) (by linarith)
      norm_num [RETRY_PROFILES.server, min_def] at key ⊢
      exact key
    · have heq : computeRetryDelay RETRY_PROFILES.server (3 - 1) u
          = max 1 (round ((2000 : ℚ) + u * (2000 * (1/2)))) := by
        norm_num [computeRetryDelay, RETRY_PROFILES.server, min_def]
      rw [heq]
      have key := jitterClampBounds 2000 (1/2) u 1000 3000 (by norm_num)
        (by linarith) (by linarith)
      norm_num [RETRY_PROFILES.server, min_def] at key ⊢
      exact key
    · have heq : computeRetryDelay RETRY_PROFILES.server (4 - 1) u
          = max 1 (round ((4000 : ℚ) + u * (4000 * (1/2)))) := by
        norm_num [computeRetryDelay, RETRY_PROFILES.server, min_def]
      rw [heq]
      have key := jitterClampBounds 4000 (1/2) u 2000 6000 (by norm_num)
        (by linarith) (by linarith)
      norm_num [RETRY_PROFILES.server, min_def] at key ⊢
      exact key

/-- Witness for C5: the bounds at the network profile, upcoming attempt 2, jitter
source 0. -/
theorem computeRetryDelay_jitter_bounds_witness :
    (RETRY_PROFILES.network.baseDelayMs : ℚ) * 2 ^ (2 - 2)
        * (1 - RETRY_PROFILES.network.jitterFactor)
        ≤ (computeRetryDelay RETRY_PROFILES.network (2 - 1) 0 : ℚ) ∧
    (computeRetryDelay RETRY_PROFILES.network (2 - 1) 0 : ℚ)
        ≤ min (RETRY_PROFILES.network.maxDelayMs : ℚ)
            ((RETRY_PROFILES.network.baseDelayMs : ℚ) * 2 ^ (2 - 2))
            * (1 + RETRY_PROFILES.network.jitterFactor) ∧
    1 ≤ computeRetryDelay RETRY_PROFILES.network (2 - 1) 0 :=
  computeRetryDelay_jitter_bounds RETRY_PROFILES.network (Or.inl rfl) 2 (by norm_num)
    (by norm_num [RETRY_PROFILES.network]) 0 (by norm_num) (by norm_num)

/-- C1: on any transport/stream failure, `_aixChatGenerateContent_LL` resolves with
the final accumulator (the run function is total and returns it — the catch block
swallows the error): previously accumulated fragments are preserved as a prefix of
the result; when the abort signal is set or the error is an AbortError the
accumulator is cleanly aborted (`setClientAborted`: same fragments, stop reason
`client-abort`); otherwise an error fragment with the human-readable message is
appended (`setClientExcepted`). -/
theorem aixLL_failure_preserves_and_dispatches
    (acc : AixChatGenerateContent_LL) (ua ea : Bool) (txt : String) :
    acc.fragments <+:
      (aixChatGenerateContent_LL_run acc (some (ua, ea, txt))).fragments ∧
    ((ua || ea) = true →
      (aixChatGenerateContent_LL_run acc (some (ua, ea, txt))).fragments
          = acc.fragments ∧
      (aixChatGenerateContent_LL_run acc (some (ua, ea, txt))).genTokenStopReason
          = some .clientAbort) ∧
    (ua = false → ea = false →
      (aixChatGenerateContent_LL_run acc (some (ua, ea, txt))).fragments
        = acc.fragments ++ [createErrorContentFragment
            ("An unexpected error occurred: " ++ txt ++ " Please retry.")]) := by
  cases ua <;> cases ea <;>
    simp [aixChatGenerateContent_LL_run, aixLLCatch, finalizeAccumulator,
      setClientAborted, setClientExcepted, List.prefix_append]

/-- Witness for C1: a concrete aborted failure preserves the one accumulated text
fragment and marks `client-abort`; a concrete non-abort failure appends exactly the
error fragment to it. -/
theorem aixLL_failure_preserves_and_dispatches_witness :
    (aixChatGenerateContent_LL_run
        ⟨[⟨.content, .text "partial out"⟩], none, none, none⟩
        (some (true, false, "boom"))).fragments = [⟨.content, .text "partial out"⟩] ∧
    (aixChatGenerateContent_LL_run
        ⟨[⟨.content, .text "partial out"⟩], none, none, none⟩
        (some (true, false, "boom"))).genTokenStopReason = some .clientAbort ∧
    (aixChatGenerateContent_LL_run
        ⟨[⟨.content, .text "partial out"⟩], none, none, none⟩
        (some (false, false, "boom"))).fragments
      = [⟨.content, .text "partial out"⟩,
         createErrorContentFragment "An unexpected error occurred: boom Please retry."] :=
  ⟨((aixLL_failure_preserves_and_dispatches
      ⟨[⟨.content, .text "partial out"⟩], none, none, none⟩ true false "boom").2.1 rfl).1,
   ((aixLL_failure_preserves_and_dispatches
      ⟨[⟨.content, .text "partial out"⟩], none, none, none⟩ true false "boom").2.1 rfl).2,
   (aixLL_failure_preserves_and_dispatches
      ⟨[⟨.content, .text "partial out"⟩], none, none, none⟩ false false "boom").2.2 rfl rfl⟩

/-- C9: with a streaming callback supplied, the `aixChatGenerateContent_DMessage`
event trace starts with a not-done notification, then the vendor rate-limit hook,
then the transport call; every notification in between is not-done; cost computation
precedes the single terminal done notification, which closes the trace; and the
trace contains exactly one done notification. -/
theorem aixDMessage_notification_discipline (llUpdates : List Bool) :
    ∃ mid : List DMessageEvent,
      aixChatGenerateContent_DMessage_trace true llUpdates
        = [.notify false, .rateLimitHook, .transportCall] ++ mid
            ++ [.computeCosts, .notify true] ∧
      (∀ e ∈ mid, e = .notify false) ∧
      (aixChatGenerateContent_DMessage_trace true llUpdates).count (.notify true)
        = 1 := by
  refine ⟨llUpdates.filterMap
    (fun isDone => if isDone then none else some (.notify false)), ?_, ?_, ?_⟩
  · simp [aixChatGenerateContent_DMessage_trace]
  · intro e he
    simp only [List.mem_filterMap] at he
    obtain ⟨a, _, hfa⟩ := he
    cases a <;> simp_all
  · have hnotin : DMessageEvent.notify true ∉
        llUpdates.filterMap (fun isDone =>
          if isDone then none else some (DMessageEvent.notify false)) := by
      intro hmem
      simp only [List.mem_filterMap] at hmem
      obtain ⟨a, _, hfa⟩ := hmem
      cases a <;> simp_all
    have h1 : aixChatGenerateContent_DMessage_trace true llUpdates
        = [.notify false, .rateLimitHook, .transportCall]
            ++ llUpdates.filterMap (fun isDone =>
                if isDone then none else some (.notify false))
            ++ [.computeCosts, .notify true] := by
      simp [aixChatGenerateContent_DMessage_trace]
    rw [h1]
    simp [List.count_append, List.count_cons, List.count_eq_zero.mpr hnotin]

/-- Counterexample for C6: a result containing one error-variant fragment whose
`error` text is empty. The claim says the facade throws an Error whenever
error-variant fragments are present; the code only throws when the concatenated
error text is truthy (nonempty), so here it resolves with `''` instead. -/
theorem aixText_emptyErrorFragment_resolves :
    aixChatGenerateText_Simple_finish ⟨[⟨.content, .errorPart ""⟩], none, none, none⟩ false
      = .resolvedText "" ∧
    List.any (⟨[⟨.content, .errorPart ""⟩], none, none, none⟩ :
        AixChatGenerateContent_LL).fragments (fun f => f.part.isErrorP) = true := by
  decide

/-- Concatenation of the text parts of a fragment list (the claim's "concatenated
text of the text fragments"). -/
def textConcat : List DMessageFragment → String
  | [] => ""
  | f :: fs => (match f.part with | .text t => t | _ => "") ++ textConcat fs

/-- If the fragment list contains a tool-invocation part, the `_llToText` loop throws
the tool-invocation error (of the first such part). -/
theorem llToTextGo_error_of_tool :
    ∀ (fs : List DMessageFragment), fs.any (fun f => f.part.isToolInv) = true →
    ∀ acc, ∃ s, llToTextGo fs acc
      = .error ("AIX: Unexpected tool invocation " ++ s ++ " in the Text response.")
  | [], h => by simp at h
  | f :: fs, h => by
    intro acc
    cases hp : f.part <;>
      simp only [llToTextGo, hp] <;>
      first
        | exact ⟨_, rfl⟩
        | exact llToTextGo_error_of_tool fs
            (by simpa [List.any_cons, hp, DMessagePart.isToolInv] using h) _

/-- Without tool-invocation parts, the `_llToText` loop completes normally. -/
theorem llToTextGo_ok_of_no_tool :
    ∀ (fs : List DMessageFragment), fs.any (fun f => f.part.isToolInv) = false →
    ∀ acc, ∃ t, llToTextGo fs acc = .ok t
  | [], _ => fun acc => ⟨acc, by simp [llToTextGo]⟩
  | f :: fs, h => by
    intro acc
    cases hp : f.part <;>
      simp only [llToTextGo, hp] <;>
      first
        | exact llToTextGo_ok_of_no_tool fs
            (by simpa [List.any_cons, hp, DMessagePart.isToolInv] using h) _
        | (exfalso; simp [List.any_cons, hp, DMessagePart.isToolInv] at h)

/-- Without tool-invocation and error parts, the `_llToText` loop appends exactly the
concatenated text parts. -/
theorem llToTextGo_clean :
    ∀ (fs : List DMessageFragment),
      fs.all (fun f => !f.part.isToolInv && !f.part.isErrorP) = true →
    ∀ acc, llToTextGo fs acc = .ok (acc ++ textConcat fs)
  | [], _ => fun acc => by simp [llToTextGo, textConcat]
  | f :: fs, h => by
    intro acc
    have h' : fs.all (fun f => !f.part.isToolInv && !f.part.isErrorP) = true := by
      simp only [List.all_cons, Bool.and_eq_true] at h
      exact h.2
    cases hp : f.part <;>
      simp only [llToTextGo, hp, textConcat] <;>
      first
        | (rw [llToTextGo_clean fs h']; simp [String.append_assoc]; done)
        | (exfalso;
           simp [List.all_cons, hp, DMessagePart.isToolInv, DMessagePart.isErrorP] at h)

/-- C6 (amended): the text facade's outcomes, in the code's dispatch order: an Error
whenever a tool-invocation fragment is present; else an AbortError when the abort
signal was set; else the empty-text Error when the result has no fragments at all;
else an Error carrying the concatenated error-fragment text when that concatenation
is nonempty; and when no tool-invocation or error fragments are present it resolves
with the concatenated text of the text fragments. (The original claim's "throws
whenever error fragments are present" fails for error fragments with empty text,
see the counterexample.) -/
theorem aixChatGenerateText_Simple_outcome_spec
    (ll : AixChatGenerateContent_LL) (ab : Bool) :
    (ll.fragments.any (fun f => f.part.isToolInv) = true →
      ∃ s, aixChatGenerateText_Simple_finish ll ab
        = .errThrown ("AIX: Unexpected tool invocation " ++ s ++ " in the Text response.")) ∧
    (ll.fragments.any (fun f => f.part.isToolInv) = false → ab = true →
      aixChatGenerateText_Simple_finish ll ab = .errAborted) ∧
    (ll.fragments = [] → ab = false →
      aixChatGenerateText_Simple_finish ll ab = .errThrown "AIX: Empty text response.") ∧
    (ll.fragments.any (fun f => f.part.isToolInv) = false → ab = false →
      ll.fragments ≠ [] → llErrorJoin ll.fragments ≠ "" →
      aixChatGenerateText_Simple_finish ll ab
        = .errThrown ("AIX: Error in response: " ++ llErrorJoin ll.fragments)) ∧
    (ll.fragments.all (fun f => !f.part.isToolInv && !f.part.isErrorP) = true →
      ab = false → ll.fragments ≠ [] →
      aixChatGenerateText_Simple_finish ll ab
        = .resolvedText (textConcat ll.fragments)) := by
  refine ⟨?_, ?_, ?_, ?_, ?_⟩
  · intro h
    obtain ⟨s, hs⟩ := llToTextGo_error_of_tool ll.fragments h ""
    refine ⟨s, ?_⟩
    cases hfr : ll.fragments with
    | nil => rw [hfr] at h; simp at h
    | cons g gs =>
      rw [hfr] at hs
      simp [aixChatGenerateText_Simple_finish, llToTextText, hfr, hs, Except.map]
  · intro h hab
    obtain ⟨t, ht⟩ := llToTextGo_ok_of_no_tool ll.fragments h ""
    cases hfr : ll.fragments with
    | nil => simp [aixChatGenerateText_Simple_finish, llToTextText, hfr, hab]
    | cons g gs =>
      rw [hfr] at ht
      simp [aixChatGenerateText_Simple_finish, llToTextText, hfr, ht, hab, Except.map]
  · intro hfr hab
    simp [aixChatGenerateText_Simple_finish, llToTextText, hfr, hab]
  · intro h hab hne hj
    obtain ⟨t, ht⟩ := llToTextGo_ok_of_no_tool ll.fragments h ""
    cases hfr : ll.fragments with
    | nil => exact absurd hfr hne
    | cons g gs =>
      rw [hfr] at ht hj
      simp [aixChatGenerateText_Simple_finish, llToTextText, hfr, ht, hab, hj, Except.map]
  · intro hall hab hne
    have ht := llToTextGo_clean ll.fragments hall ""
    have hj : llErrorJoin ll.fragments = "" := by
      have hfilter : ll.fragments.filter
          (fun f => f.kind = FragmentKind.content && f.part.isErrorP) = [] := by
        rw [List.filter_eq_nil_iff]
        intro f hf
        have := List.all_eq_true.mp hall f hf
        simp only [Bool.and_eq_true, Bool.not_eq_true'] at this
        simp [this.2]
      simp [llErrorJoin, hfilter, String.intercalate]
    cases hfr : ll.fragments with
    | nil => exact absurd hfr hne
    | cons g gs =>
      rw [hfr] at ht hj
      simp [aixChatGenerateText_Simple_finish, llToTextText, hfr, ht, hj, hab, Except.map]

/-- Witness for C6 (amended): concrete instances of the error-fragment throw
(nonempty concatenation) and of clean text resolution. -/
theorem aixChatGenerateText_Simple_outcome_spec_witness :
    aixChatGenerateText_Simple_finish
        ⟨[⟨.content, .text "Hello"⟩, ⟨.content, .errorPart "boom"⟩], none, none, none⟩
        false
      = .errThrown ("AIX: Error in response: "
          ++ llErrorJoin [⟨.content, .text "Hello"⟩, ⟨.content, .errorPart "boom"⟩]) ∧
    aixChatGenerateText_Simple_finish
        ⟨[⟨.content, .text "Hello"⟩, ⟨.content, .text " world"⟩], none, none, none⟩
        false
      = .resolvedText (textConcat
          [⟨.content, .text "Hello"⟩, ⟨.content, .text " world"⟩]) :=
  ⟨(aixChatGenerateText_Simple_outcome_spec
      ⟨[⟨.content, .text "Hello"⟩, ⟨.content, .errorPart "boom"⟩], none, none, none⟩
      false).2.2.2.1 (by decide) rfl (by decide) (by decide),
   (aixChatGenerateText_Simple_outcome_spec
      ⟨[⟨.content, .text "Hello"⟩, ⟨.content, .text " world"⟩], none, none, none⟩
      false).2.2.2.2 (by decide) rfl (by decide)⟩

/-- When JavaScript truthiness accepts an optional string, the string was present. -/
theorem someTruthyStr_eq_some {o : Option String} {s : String}
    (h : someTruthyStr o = some s) : o = some s := by
  cases o with
  | none => simp [someTruthyStr] at h
  | some t => by_cases ht : t = "" <;> simp_all [someTruthyStr]

/-- The effective parameter record's `llmRef` always comes from the base options:
the override's `llmRef` is deleted before the spread. -/
theorem aixEffectiveLLMOptions_llmRef (opts : DModelParameterValues)
    (ov : Option DModelParameterValues) :
    (aixEffectiveLLMOptions opts ov).llmRef = opts.llmRef := by
  cases ov <;> simp [aixEffectiveLLMOptions, spreadParams]

/-- C7: for every parameter, the effective value used to build the transport model
configuration is the one from the highest-precedence layer defining it, among
(low→high) the implicit runtime fallback, the model's initial parameters, the user
per-model overrides and the per-call override map (which, per its TypeScript type
`Omit<DModelParameterValues, 'llmRef'>`, carries no `llmRef` — hypothesis
`hov`); and concretely for temperature: with fallback 0.5, model-initial 0.7,
user-override 0.9 and per-call-override 1.1 the built model's temperature is 1.1,
and removing each layer in turn yields 0.9, 0.7 and 0.5. -/
theorem parameterOverlay_precedence :
    (∀ (init user ov : DModelParameterValues), ov.llmRef = none →
      let eff := aixEffectiveLLMOptions
        (getAllModelParameterValues (some init) (some user)) (some ov)
      eff.llmRef = (ov.llmRef <|> user.llmRef <|> init.llmRef
          <|> LLMImplicitParamersRuntimeFallback.llmRef) ∧
      eff.llmTemperature = (ov.llmTemperature <|> user.llmTemperature
          <|> init.llmTemperature <|> LLMImplicitParamersRuntimeFallback.llmTemperature) ∧
      eff.llmResponseTokens = (ov.llmResponseTokens <|> user.llmResponseTokens
          <|> init.llmResponseTokens <|> LLMImplicitParamersRuntimeFallback.llmResponseTokens) ∧
      eff.llmTopP = (ov.llmTopP <|> user.llmTopP <|> init.llmTopP
          <|> LLMImplicitParamersRuntimeFallback.llmTopP) ∧
      eff.llmForceNoStream = (ov.llmForceNoStream <|> user.llmForceNoStream
          <|> init.llmForceNoStream <|> LLMImplicitParamersRuntimeFallback.llmForceNoStream) ∧
      eff.llmVndAntThinkingBudget = (ov.llmVndAntThinkingBudget <|> user.llmVndAntThinkingBudget
          <|> init.llmVndAntThinkingBudget <|> LLMImplicitParamersRuntimeFallback.llmVndAntThinkingBudget) ∧
      eff.llmVndGeminiShowThoughts = (ov.llmVndGeminiShowThoughts <|> user.llmVndGeminiShowThoughts
          <|> init.llmVndGeminiShowThoughts <|> LLMImplicitParamersRuntimeFallback.llmVndGeminiShowThoughts) ∧
      eff.llmVndGeminiThinkingBudget = (ov.llmVndGeminiThinkingBudget <|> user.llmVndGeminiThinkingBudget
          <|> init.llmVndGeminiThinkingBudget <|> LLMImplicitParamersRuntimeFallback.llmVndGeminiThinkingBudget) ∧
      eff.llmVndOaiReasoningEffort = (ov.llmVndOaiReasoningEffort <|> user.llmVndOaiReasoningEffort
          <|> init.llmVndOaiReasoningEffort <|> LLMImplicitParamersRuntimeFallback.llmVndOaiReasoningEffort) ∧
      eff.llmVndOaiRestoreMarkdown = (ov.llmVndOaiRestoreMarkdown <|> user.llmVndOaiRestoreMarkdown
          <|> init.llmVndOaiRestoreMarkdown <|> LLMImplicitParamersRuntimeFallback.llmVndOaiRestoreMarkdown) ∧
      eff.llmVndOaiWebSearchContext = (ov.llmVndOaiWebSearchContext <|> user.llmVndOaiWebSearchContext
          <|> init.llmVndOaiWebSearchContext <|> LLMImplicitParamersRuntimeFallback.llmVndOaiWebSearchContext) ∧
      eff.llmVndOaiWebSearchGeolocation = (ov.llmVndOaiWebSearchGeolocation <|> user.llmVndOaiWebSearchGeolocation
          <|> init.llmVndOaiWebSearchGeolocation <|> LLMImplicitParamersRuntimeFallback.llmVndOaiWebSearchGeolocation) ∧
      eff.llmVndPerplexityDateFilter = (ov.llmVndPerplexityDateFilter <|> user.llmVndPerplexityDateFilter
          <|> init.llmVndPerplexityDateFilter <|> LLMImplicitParamersRuntimeFallback.llmVndPerplexityDateFilter) ∧
      eff.llmVndPerplexitySearchMode = (ov.llmVndPerplexitySearchMode <|> user.llmVndPerplexitySearchMode
          <|> init.llmVndPerplexitySearchMode <|> LLMImplicitParamersRuntimeFallback.llmVndPerplexitySearchMode) ∧
      eff.llmVndXaiSearchMode = (ov.llmVndXaiSearchMode <|> user.llmVndXaiSearchMode
          <|> init.llmVndXaiSearchMode <|> LLMImplicitParamersRuntimeFallback.llmVndXaiSearchMode) ∧
      eff.llmVndXaiSearchSources = (ov.llmVndXaiSearchSources <|> user.llmVndXaiSearchSources
          <|> init.llmVndXaiSearchSources <|> LLMImplicitParamersRuntimeFallback.llmVndXaiSearchSources) ∧
      eff.llmVndXaiSearchDateFilter = (ov.llmVndXaiSearchDateFilter <|> user.llmVndXaiSearchDateFilter
          <|> init.llmVndXaiSearchDateFilter <|> LLMImplicitParamersRuntimeFallback.llmVndXaiSearchDateFilter)) ∧
    ((aixCreateModelFromLLMOptions []
        (getAllModelParameterValues
          (some { llmRef := some "m1", llmTemperature := some (some (7/10)) })
          (some { llmTemperature := some (some (9/10)) }))
        (some { llmTemperature := some (some (11/10)) }) "m1").map (fun m => m.temperature)
      = .ok (some (some (11/10)))) ∧
    ((aixCreateModelFromLLMOptions []
        (getAllModelParameterValues
          (some { llmRef := some "m1", llmTemperature := some (some (7/10)) })
          (some { llmTemperature := some (some (9/10)) }))
        none "m1").map (fun m => m.temperature)
      = .ok (some (some (9/10)))) ∧
    ((aixCreateModelFromLLMOptions []
        (getAllModelParameterValues
          (some { llmRef := some "m1", llmTemperature := some (some (7/10)) })
          none)
        none "m1").map (fun m => m.temperature)
      = .ok (some (some (7/10)))) ∧
    ((aixCreateModelFromLLMOptions []
        (getAllModelParameterValues (some { llmRef := some "m1" }) none)
        none "m1").map (fun m => m.temperature)
      = .ok (some (some (1/2)))) := by
  refine ⟨?_, rfl, rfl, rfl, rfl⟩
  intro init user ov hov
  refine ⟨?_, ?_, ?_, ?_, ?_, ?_, ?_, ?_, ?_, ?_, ?_, ?_, ?_, ?_, ?_, ?_, ?_⟩ <;>
    simp [aixEffectiveLLMOptions, spreadParams, getAllModelParameterValues,
      LLMImplicitParamersRuntimeFallback, hov]

/-- Witness for C7: the temperature clause of the general precedence law at concrete
records (per-call override wins). -/
theorem parameterOverlay_precedence_witness :
    (aixEffectiveLLMOptions
        (getAllModelParameterValues
          (some { llmRef := some "m1", llmTemperature := some (some (7/10)) })
          (some { llmTemperature := some (some (9/10)) }))
        (some { llmTemperature := some (some (11/10)) })).llmTemperature
      = some (some (11/10)) := by
  have h := parameterOverlay_precedence.1
    { llmRef := some "m1", llmTemperature := some (some (7/10)) }
    { llmTemperature := some (some (9/10)) }
    { llmTemperature := some (some (11/10)) } rfl
  exact h.2.1

/-- C8: `aixCreateModelFromLLMOptions` ignores any `llmRef` carried by the per-call
override: the result is unchanged when the override's `llmRef` is dropped, and on
success the returned model's `id` is always the `llmRef` of the merged
implicit/initial/user layers. -/
theorem aixCreateModel_ignores_override_llmRef :
    (∀ (ifaces : List LLMInterface) (opts ov : DModelParameterValues) (dbg : String),
      aixCreateModelFromLLMOptions ifaces opts (some ov) dbg
        = aixCreateModelFromLLMOptions ifaces opts (some { ov with llmRef := none }) dbg) ∧
    (∀ (ifaces : List LLMInterface) (init user : Option DModelParameterValues)
        (ov : DModelParameterValues) (dbg : String) (m : AixModel),
      aixCreateModelFromLLMOptions ifaces (getAllModelParameterValues init user)
          (some ov) dbg = .ok m →
      (getAllModelParameterValues init user).llmRef = some m.id) := by
  constructor
  · intro ifaces opts ov dbg
    rfl
  · intro ifaces init user ov dbg m h
    simp only [aixCreateModelFromLLMOptions] at h
    split at h
    · simp at h
    · rename_i s hts
      rw [aixEffectiveLLMOptions_llmRef] at hts
      injection h with h2
      rw [someTruthyStr_eq_some hts, ← h2]

/-- Witness for C8: an override trying to smuggle `llmRef := "evil"` leaves the model
id at the `llmRef` of the merged layers (`"m1"`). -/
theorem aixCreateModel_ignores_override_llmRef_witness :
    (getAllModelParameterValues (some { llmRef := some "m1" }) none).llmRef
      = some (AixModel.id
          { id := "m1", acceptsOutputs := ["text"],
            temperature := some (some (1/2)), maxTokens := some 8192 }) :=
  aixCreateModel_ignores_override_llmRef.2 [] (some { llmRef := some "m1" }) none
    { llmRef := some "evil" } "m1"
    { id := "m1", acceptsOutputs := ["text"],
      temperature := some (some (1/2)), maxTokens := some 8192 }
    rfl

/-- Counterexample for C10: a per-call override that is the only layer defining
`llmRef` still throws — the override's `llmRef` is discarded — contradicting the
claim's "exactly when neither ... nor the per-call override define the model
reference". -/
theorem aixCreateModel_overrideOnlyRef_throws :
    aixCreateModelFromLLMOptions []
        (getAllModelParameterValues none none)
        (some { llmRef := some "gpt-x" }) "dbg"
      = .error "AIX: Error in configuration for model dbg (missing ref, temperature)" ∧
    ({ llmRef := some "gpt-x" } : DModelParameterValues).llmRef ≠ none := by
  constructor
  · rfl
  · simp

/-- C10 (amended): `aixCreateModelFromLLMOptions` throws — before any transport
interaction, since the whole construction happens before returning — exactly when
the merged implicit/initial/user overlay carries no truthy `llmRef`; the implicit
runtime fallback deliberately defines none, so this is exactly when neither the
model's initial parameters nor the user overrides define a (nonempty) model
reference. The per-call override cannot supply it: its `llmRef` is discarded. -/
theorem aixCreateModel_missing_llmRef_error :
    (∀ (ifaces : List LLMInterface) (init user ov : Option DModelParameterValues)
        (dbg : String),
      (∃ msg, aixCreateModelFromLLMOptions ifaces (getAllModelParameterValues init user)
          ov dbg = .error msg)
        ↔ someTruthyStr (getAllModelParameterValues init user).llmRef = none) ∧
    (∀ init user : Option DModelParameterValues,
      (getAllModelParameterValues init user).llmRef
        = ((user.getD {}).llmRef <|> (init.getD {}).llmRef)) := by
  constructor
  · intro ifaces init user ov dbg
    constructor
    · rintro ⟨msg, hmsg⟩
      simp only [aixCreateModelFromLLMOptions] at hmsg
      split at hmsg
      · rename_i hts
        rw [aixEffectiveLLMOptions_llmRef] at hts
        exact hts
      · simp at hmsg
    · intro hts
      refine ⟨"AIX: Error in configuration for model " ++ dbg ++ " (missing ref, temperature)", ?_⟩
      simp only [aixCreateModelFromLLMOptions]
      rw [show (aixEffectiveLLMOptions (getAllModelParameterValues init user) ov).llmRef
          = (getAllModelParameterValues init user).llmRef
        from aixEffectiveLLMOptions_llmRef _ _, hts]
  · intro init user
    simp [getAllModelParameterValues, spreadParams, LLMImplicitParamersRuntimeFallback]

/-- Witness for C10 (amended): with no layer defining `llmRef`, construction errors. -/
theorem aixCreateModel_missing_llmRef_error_witness :
    ∃ msg, aixCreateModelFromLLMOptions []
        (getAllModelParameterValues none none) none "dbg" = .error msg :=
  (aixCreateModel_missing_llmRef_error.1 [] none none none "dbg").mpr rfl
